import Mathlib

/-!
Verification development for the gophkeeper client core: the crypto
primitives (internal/crypto/crypto.go), the encrypted secret cache
(internal/storage, SQLite and file variants), and the synchronization
orchestrator (internal/usecase/usecase.go).

Bytes are modelled as `List Nat` (each element a byte value).  External
collaborators (Go's `crypto/aes` + `crypto/cipher` GCM, `crypto/rand`,
`encoding/json`, `database/sql`) are modelled by executable functions that
reproduce the control flow and interface behaviour the client code relies
on: the AEAD tag is an arbitrary executable function of key, nonce and
plaintext, the random source is an explicit byte-stream argument, and the
JSON codec is an injective executable serializer with a partial decoder.
-/

/-- Record of contracts/response: a stored credential pair. -/
structure LoginPassword where
  login : String
  password : String
  label : String
deriving DecidableEq, Repr

/-- Record of contracts/response: a stored text note. -/
structure TextSecret where
  title : String
  body : String
deriving DecidableEq, Repr

/-- Record of contracts/response: a stored binary blob. -/
structure BinarySecret where
  filename : String
  mimeType : String
  data : String
deriving DecidableEq, Repr

/-- Record of contracts/response: a stored bank card. -/
structure CardSecret where
  cardholder : String
  pan : String
  expMonth : String
  expYear : String
  brand : String
  last4 : String
deriving DecidableEq, Repr

/-- contracts/response.AllSecrets: the bundle of all four secret kinds. -/
structure AllSecrets where
  loginPassword : List LoginPassword
  textSecret : List TextSecret
  binarySecret : List BinarySecret
  cardSecret : List CardSecret
deriving DecidableEq, Repr

/-- contracts/request.LoginPassword (payload of PostLoginPassword). -/
structure RequestLoginPassword where
  login : String
  password : String
  label : String
deriving DecidableEq, Repr

/-- contracts/request.TextSecret (payload of PostTextSecret). -/
structure RequestTextSecret where
  title : String
  body : String
deriving DecidableEq, Repr

/-- contracts/request.BinarySecret (payload of PostBinarySecret). -/
structure RequestBinarySecret where
  filename : String
  mimeType : String
  data : String
deriving DecidableEq, Repr

/-- contracts/request.CardSecret (payload of PostCardSecret). -/
structure RequestCardSecret where
  cardholder : String
  pan : String
  expMonth : String
  expYear : String
  brand : String
  last4 : String
deriving DecidableEq, Repr

/-- GCM nonce size used throughout crypto.go (`gcm.NonceSize()` = 12). -/
def nonceSize : Nat := 12

/-- GCM authentication tag size (`gcm.Overhead()` = 16). -/
def tagSize : Nat := 16

/-- Key lengths accepted by Go's `aes.NewCipher`: 16, 24 or 32 bytes
(AES-128 / AES-192 / AES-256); any other length yields `KeySizeError`. -/
def validKeyLen (n : Nat) : Bool := n == 16 || n == 24 || n == 32

/-- Error outcomes of the crypto layer, one per distinct failure site in
crypto.go: `aes.NewCipher` key-size rejection, the random-nonce read,
the explicit "ciphertext too short" check, and GCM authentication. -/
inductive CryptoErr where
  | keySize (n : Nat)
  | randSource
  | tooShort
  | authFailed
deriving DecidableEq, Repr

/-- Model of the GCM authentication tag: an executable 16-byte function of
key, nonce and plaintext (the concrete formula is irrelevant; the code
only relies on the tag being a deterministic function of those inputs). -/
def gcmTag (key nonce pt : List Nat) : List Nat :=
  (List.range tagSize).map
    (fun i => (key.sum + 2 * nonce.sum + 3 * pt.sum + 5 * pt.length + 7 * i) % 256)

/-- Model of `gcm.Seal(nil, nonce, pt, nil)`: plaintext followed by tag. -/
def gcmSeal (key nonce pt : List Nat) : List Nat :=
  pt ++ gcmTag key nonce pt

/-- Model of `gcm.Open(nil, nonce, ct, nil)`: fails when `ct` is shorter
than the tag, otherwise strips and verifies the trailing tag. -/
def gcmOpen (key nonce ct : List Nat) : Option (List Nat) :=
  if ct.length < tagSize then none
  else
    let pt := ct.take (ct.length - tagSize)
    let tag := ct.drop (ct.length - tagSize)
    if tag = gcmTag key nonce pt then some pt else none

/-- crypto.Encrypt: builds the AES cipher (rejecting invalid key sizes),
reads a fresh 12-byte nonce from the random source `rand` (failing when
the source is exhausted, as `io.ReadFull` does), and returns
`nonce ++ sealed` exactly as `gcm.Seal(nonce, nonce, plaintext, nil)`. -/
def Encrypt (key plaintext rand : List Nat) : Except CryptoErr (List Nat) :=
  if validKeyLen key.length then
    if rand.length < nonceSize then .error .randSource
    else
      let nonce := rand.take nonceSize
      .ok (nonce ++ gcmSeal key nonce plaintext)
  else .error (.keySize key.length)

/-- crypto.Decrypt: builds the AES cipher (rejecting invalid key sizes),
checks `len(ciphertext) < nonceSize`, splits nonce from sealed data and
opens it with GCM. -/
def Decrypt (key ciphertext : List Nat) : Except CryptoErr (List Nat) :=
  if validKeyLen key.length then
    if ciphertext.length < nonceSize then .error .tooShort
    else
      let nonce := ciphertext.take nonceSize
      let data := ciphertext.drop nonceSize
      match gcmOpen key nonce data with
      | some pt => .ok pt
      | none => .error .authFailed
  else .error (.keySize key.length)

/-- crypto.DeriveKey: SHA-256 of the passphrase, modelled as an executable
32-byte digest of the passphrase's characters (the code only relies on
the digest being a deterministic 32-byte function of the passphrase). -/
def DeriveKey (passphrase : String) : List Nat :=
  (List.range 32).map
    (fun i => ((passphrase.data.map Char.toNat).sum * (i + 3) + i) % 256)

/-- `true` exactly on the `aes.KeySizeError` outcome of a crypto call. -/
def isKeySizeError : Except CryptoErr (List Nat) → Bool
  | .error (.keySize _) => true
  | _ => false

theorem gcmTag_length (key nonce pt : List Nat) :
    (gcmTag key nonce pt).length = tagSize := by
  simp [gcmTag]

theorem deriveKey_length (p : String) : (DeriveKey p).length = 32 := by
  simp [DeriveKey]

/-- Serialization of a string: character count followed by char codes
(model of the JSON string field layout produced by encoding/json). -/
def encString (s : String) : List Nat :=
  s.length :: s.data.map Char.toNat

/-- Partial inverse of `encString`; fails on truncated input. -/
def decString : List Nat → Option (String × List Nat)
  | [] => none
  | n :: rest =>
    if n ≤ rest.length then
      some (String.mk ((rest.take n).map Char.ofNat), rest.drop n)
    else none

/-- Serialization of a list of records: element count, then elements. -/
def encListWith (f : α → List Nat) (xs : List α) : List Nat :=
  xs.length :: (xs.map f).flatten

/-- Decodes exactly `n` elements with the element decoder `f`. -/
def decCountWith (f : List Nat → Option (α × List Nat)) :
    Nat → List Nat → Option (List α × List Nat)
  | 0, l => some ([], l)
  | n + 1, l => do
    let (x, l₁) ← f l
    let (xs, l₂) ← decCountWith f n l₁
    some (x :: xs, l₂)

/-- Partial inverse of `encListWith`. -/
def decListWith (f : List Nat → Option (α × List Nat)) :
    List Nat → Option (List α × List Nat)
  | [] => none
  | n :: rest => decCountWith f n rest

/-- Serialization of a `LoginPassword` record. -/
def encLP (x : LoginPassword) : List Nat :=
  encString x.login ++ encString x.password ++ encString x.label

/-- Decoder for a `LoginPassword` record. -/
def decLP (l : List Nat) : Option (LoginPassword × List Nat) := do
  let (a, l₁) ← decString l
  let (b, l₂) ← decString l₁
  let (c, l₃) ← decString l₂
  some (⟨a, b, c⟩, l₃)

/-- Serialization of a `TextSecret` record. -/
def encTS (x : TextSecret) : List Nat :=
  encString x.title ++ encString x.body

/-- Decoder for a `TextSecret` record. -/
def decTS (l : List Nat) : Option (TextSecret × List Nat) := do
  let (a, l₁) ← decString l
  let (b, l₂) ← decString l₁
  some (⟨a, b⟩, l₂)

/-- Serialization of a `BinarySecret` record. -/
def encBS (x : BinarySecret) : List Nat :=
  encString x.filename ++ encString x.mimeType ++ encString x.data

/-- Decoder for a `BinarySecret` record. -/
def decBS (l : List Nat) : Option (BinarySecret × List Nat) := do
  let (a, l₁) ← decString l
  let (b, l₂) ← decString l₁
  let (c, l₃) ← decString l₂
  some (⟨a, b, c⟩, l₃)

/-- Serialization of a `CardSecret` record. -/
def encCS (x : CardSecret) : List Nat :=
  encString x.cardholder ++ encString x.pan ++ encString x.expMonth ++
    encString x.expYear ++ encString x.brand ++ encString x.last4

/-- Decoder for a `CardSecret` record. -/
def decCS (l : List Nat) : Option (CardSecret × List Nat) := do
  let (a, l₁) ← decString l
  let (b, l₂) ← decString l₁
  let (c, l₃) ← decString l₂
  let (d, l₄) ← decString l₃
  let (e, l₅) ← decString l₄
  let (f, l₆) ← decString l₅
  some (⟨a, b, c, d, e, f⟩, l₆)

/-- Model of `json.Marshal` on an `AllSecrets` bundle: the four sequences
serialized in field order. -/
def jsonMarshal (s : AllSecrets) : List Nat :=
  encListWith encLP s.loginPassword ++ encListWith encTS s.textSecret ++
    encListWith encBS s.binarySecret ++ encListWith encCS s.cardSecret

/-- Model of `json.Unmarshal` into an `AllSecrets` bundle: partial inverse
of `jsonMarshal`, failing on malformed input. -/
def jsonUnmarshal (l : List Nat) : Option AllSecrets := do
  let (a, l₁) ← decListWith decLP l
  let (b, l₂) ← decListWith decTS l₁
  let (c, l₃) ← decListWith decBS l₂
  let (d, l₄) ← decListWith decCS l₃
  if l₄ = [] then some ⟨a, b, c, d⟩ else none

/-- Errors surfaced by the cache layer: a crypto failure from
Encrypt/Decrypt or a `json.Unmarshal` failure.  Failures of the
database/file substrate itself are external and modelled as absent. -/
inductive CacheErr where
  | crypto (e : CryptoErr)
  | badJSON
deriving DecidableEq, Repr

/-- State of the SQLite cache variant (internal/storage, `Cache` backed by
`.gophkeeper_cache.db`): the derived key, whether `Load` has opened the
database handle, the single `id = 1` row of the `cache` table (the
persisted entry, carried in the state because it survives across
instances), the in-memory bundle and the wrong-key flag. -/
structure SQCache where
  key : List Nat
  dbOpen : Bool
  row : Option (List Nat)
  secrets : Option AllSecrets
  wrongKey : Bool
deriving Repr

/-- storage.NewCache (SQLite variant): derives the key; the database is
not opened yet and `row` is whatever the on-disk table holds. -/
def SQCache.new (cryptoKey : String) (row : Option (List Nat)) : SQCache :=
  { key := DeriveKey cryptoKey, dbOpen := false, row := row,
    secrets := none, wrongKey := false }

/-- Cache.Load (SQLite variant): opens the database, then reads the single
row.  No row → success with empty state.  Row present: decryption
failure → set the wrong-key flag and return success; `json.Unmarshal`
failure → return success with empty state; otherwise install the decoded
bundle.  (`sql.Open`, the `CREATE TABLE` and the row query are external
calls modelled as succeeding.) -/
def SQCache.load (c : SQCache) : SQCache × Option CacheErr :=
  let c := { c with dbOpen := true }
  match c.row with
  | none => (c, none)
  | some encData =>
    match Decrypt c.key encData with
    | .error _ => ({ c with wrongKey := true }, none)
    | .ok plain =>
      match jsonUnmarshal plain with
      | none => (c, none)
      | some s => ({ c with secrets := some s }, none)

/-- Cache.WrongKey (SQLite variant). -/
def SQCache.wrongKeyFlag (c : SQCache) : Bool := c.wrongKey

/-- Cache.Get (SQLite variant): the in-memory bundle, `none` when empty. -/
def SQCache.get (c : SQCache) : Option AllSecrets := c.secrets

/-- Cache.saveToDB: returns nil immediately when the in-memory bundle or
the database handle is nil; otherwise serializes, encrypts (consuming
`rand` for the nonce) and upserts the single row. -/
def SQCache.saveToDB (c : SQCache) (rand : List Nat) : SQCache × Option CacheErr :=
  match c.secrets with
  | none => (c, none)
  | some s =>
    if c.dbOpen then
      match Encrypt c.key (jsonMarshal s) rand with
      | .error e => (c, some (.crypto e))
      | .ok enc => ({ c with row := some enc }, none)
    else (c, none)

/-- Cache.Set (SQLite variant): replaces the in-memory bundle (the
argument models the Go `*response.AllSecrets`, so `none` is the nil
pointer) and calls `saveToDB`. -/
def SQCache.set (c : SQCache) (s : Option AllSecrets) (rand : List Nat) :
    SQCache × Option CacheErr :=
  SQCache.saveToDB { c with secrets := s } rand

/-- Cache.Reset (SQLite variant): clears the in-memory bundle and, when
the database handle exists, deletes the persisted row. -/
def SQCache.reset (c : SQCache) : SQCache :=
  if c.dbOpen then { c with secrets := none, row := none }
  else { c with secrets := none }

/-- Cache.Close (SQLite variant): closes the external handle; none of the
modelled fields change (the Go code keeps `c.db` non-nil). -/
def SQCache.close (c : SQCache) : SQCache × Option CacheErr := (c, none)

/-- State of the legacy file cache variant (internal/storage/cache.go,
backed by `.gophkeeper_cache.enc`): the derived key, the file contents
if the file exists, and the in-memory bundle.  This variant has no
wrong-key flag. -/
structure FileCache where
  key : List Nat
  file : Option (List Nat)
  secrets : Option AllSecrets
deriving Repr

/-- storage.NewCache (file variant). -/
def FileCache.new (cryptoKey : String) (file : Option (List Nat)) : FileCache :=
  { key := DeriveKey cryptoKey, file := file, secrets := none }

/-- Cache.Load (file variant): a missing file is success with empty state,
but a decryption failure or a `json.Unmarshal` failure is returned to
the caller as a hard error. -/
def FileCache.load (c : FileCache) : FileCache × Option CacheErr :=
  match c.file with
  | none => (c, none)
  | some data =>
    match Decrypt c.key data with
    | .error e => (c, some (.crypto e))
    | .ok plain =>
      match jsonUnmarshal plain with
      | none => (c, some .badJSON)
      | some s => ({ c with secrets := some s }, none)

/-- Cache.Get (file variant). -/
def FileCache.get (c : FileCache) : Option AllSecrets := c.secrets

/-- Cache.saveToDisk: returns nil when the in-memory bundle is nil,
otherwise serializes, encrypts and overwrites the file. -/
def FileCache.saveToDisk (c : FileCache) (rand : List Nat) :
    FileCache × Option CacheErr :=
  match c.secrets with
  | none => (c, none)
  | some s =>
    match Encrypt c.key (jsonMarshal s) rand with
    | .error e => (c, some (.crypto e))
    | .ok enc => ({ c with file := some enc }, none)

/-- Cache.Set (file variant). -/
def FileCache.set (c : FileCache) (s : Option AllSecrets) (rand : List Nat) :
    FileCache × Option CacheErr :=
  FileCache.saveToDisk { c with secrets := s } rand

/-- Cache.Reset (file variant): clears memory and removes the file. -/
def FileCache.reset (c : FileCache) : FileCache :=
  { c with secrets := none, file := none }

/-- The usecase.HTTPClient interface: every remote call, modelled as a
function from its arguments to its outcome (a Go `error` is a `String`;
a `(T, error)` pair is `Except String T`; the `*response.AllSecrets`
result of GetAllSecrets is an `Option AllSecrets` since the pointer may
be nil). -/
structure HTTPClient where
  register : String → String → Except String String
  login : String → String → Except String String
  getAllSecrets : String → Except String (Option AllSecrets)
  getLoginPasswords : String → Except String (List LoginPassword)
  getTextSecrets : String → Except String (List TextSecret)
  getBinarySecrets : String → Except String (List BinarySecret)
  getCardSecrets : String → Except String (List CardSecret)
  postLoginPassword : String → RequestLoginPassword → Option String
  postTextSecret : String → RequestTextSecret → Option String
  postBinarySecret : String → RequestBinarySecret → Option String
  postCardSecret : String → RequestCardSecret → Option String
  deleteLoginPassword : String → String → Option String
  deleteTextSecret : String → String → Option String
  deleteBinarySecret : String → String → Option String
  deleteCardSecret : String → String → Option String

/-- usecase.UseCase (server-first variant of internal/usecase/usecase.go):
the HTTP client, the SQLite-backed cache and the session token. -/
structure UseCase where
  client : HTTPClient
  cache : SQCache
  token : String

/-- UseCase.SetToken. -/
def UseCase.setToken (uc : UseCase) (token : String) : UseCase :=
  { uc with token := token }

/-- UseCase.GetCachedSecrets: reads the cache without contacting the
server. -/
def UseCase.getCachedSecrets (uc : UseCase) : Option AllSecrets :=
  uc.cache.get

/-- UseCase.GetAllSecrets (server-first): calls the server; on success,
stores the result in the cache (the `Set` error is discarded with
`_ =`) and returns it; on failure, returns the cached bundle when one
is present, else the remote error.  `rand` feeds the nonce of the
encryption performed inside `Cache.Set`. -/
def UseCase.getAllSecrets (uc : UseCase) (rand : List Nat) :
    Except String (Option AllSecrets) × UseCase :=
  match uc.client.getAllSecrets uc.token with
  | .ok secrets =>
    let (c, _) := uc.cache.set secrets rand
    (.ok secrets, { uc with cache := c })
  | .error e =>
    match uc.cache.get with
    | some cached => (.ok (some cached), uc)
    | none => (.error e, uc)

/-- UseCase.GetLoginPasswords: remote result on success; on failure the
cached sequence when a bundle is present, else the remote error.  The
cache is never written. -/
def UseCase.getLoginPasswords (uc : UseCase) :
    Except String (List LoginPassword) × UseCase :=
  match uc.client.getLoginPasswords uc.token with
  | .ok result => (.ok result, uc)
  | .error e =>
    match uc.cache.get with
    | some cached => (.ok cached.loginPassword, uc)
    | none => (.error e, uc)

/-- UseCase.GetTextSecrets: same shape as GetLoginPasswords. -/
def UseCase.getTextSecrets (uc : UseCase) :
    Except String (List TextSecret) × UseCase :=
  match uc.client.getTextSecrets uc.token with
  | .ok result => (.ok result, uc)
  | .error e =>
    match uc.cache.get with
    | some cached => (.ok cached.textSecret, uc)
    | none => (.error e, uc)

/-- UseCase.GetBinarySecrets: same shape as GetLoginPasswords. -/
def UseCase.getBinarySecrets (uc : UseCase) :
    Except String (List BinarySecret) × UseCase :=
  match uc.client.getBinarySecrets uc.token with
  | .ok result => (.ok result, uc)
  | .error e =>
    match uc.cache.get with
    | some cached => (.ok cached.binarySecret, uc)
    | none => (.error e, uc)

/-- UseCase.GetCardSecrets: same shape as GetLoginPasswords. -/
def UseCase.getCardSecrets (uc : UseCase) :
    Except String (List CardSecret) × UseCase :=
  match uc.client.getCardSecrets uc.token with
  | .ok result => (.ok result, uc)
  | .error e =>
    match uc.cache.get with
    | some cached => (.ok cached.cardSecret, uc)
    | none => (.error e, uc)

/-- UseCase.AddLoginPassword: remote post, then `Cache.Reset()` on
success; on failure the error is returned with the cache untouched. -/
def UseCase.addLoginPassword (uc : UseCase) (lp : RequestLoginPassword) :
    Option String × UseCase :=
  match uc.client.postLoginPassword uc.token lp with
  | some e => (some e, uc)
  | none => (none, { uc with cache := uc.cache.reset })

/-- UseCase.AddTextSecret: same shape as AddLoginPassword. -/
def UseCase.addTextSecret (uc : UseCase) (ts : RequestTextSecret) :
    Option String × UseCase :=
  match uc.client.postTextSecret uc.token ts with
  | some e => (some e, uc)
  | none => (none, { uc with cache := uc.cache.reset })

/-- UseCase.AddBinarySecret: same shape as AddLoginPassword. -/
def UseCase.addBinarySecret (uc : UseCase) (bs : RequestBinarySecret) :
    Option String × UseCase :=
  match uc.client.postBinarySecret uc.token bs with
  | some e => (some e, uc)
  | none => (none, { uc with cache := uc.cache.reset })

/-- UseCase.AddCardSecret: same shape as AddLoginPassword. -/
def UseCase.addCardSecret (uc : UseCase) (cs : RequestCardSecret) :
    Option String × UseCase :=
  match uc.client.postCardSecret uc.token cs with
  | some e => (some e, uc)
  | none => (none, { uc with cache := uc.cache.reset })

/-- UseCase.DeleteLoginPassword: remote delete, then `Cache.Reset()` on
success. -/
def UseCase.deleteLoginPassword (uc : UseCase) (login : String) :
    Option String × UseCase :=
  match uc.client.deleteLoginPassword uc.token login with
  | some e => (some e, uc)
  | none => (none, { uc with cache := uc.cache.reset })

/-- UseCase.DeleteTextSecret: same shape as DeleteLoginPassword. -/
def UseCase.deleteTextSecret (uc : UseCase) (title : String) :
    Option String × UseCase :=
  match uc.client.deleteTextSecret uc.token title with
  | some e => (some e, uc)
  | none => (none, { uc with cache := uc.cache.reset })

/-- UseCase.DeleteBinarySecret: same shape as DeleteLoginPassword. -/
def UseCase.deleteBinarySecret (uc : UseCase) (filename : String) :
    Option String × UseCase :=
  match uc.client.deleteBinarySecret uc.token filename with
  | some e => (some e, uc)
  | none => (none, { uc with cache := uc.cache.reset })

/-- UseCase.DeleteCardSecret: same shape as DeleteLoginPassword. -/
def UseCase.deleteCardSecret (uc : UseCase) (cardholder : String) :
    Option String × UseCase :=
  match uc.client.deleteCardSecret uc.token cardholder with
  | some e => (some e, uc)
  | none => (none, { uc with cache := uc.cache.reset })

/-- UseCase.ResetCache. -/
def UseCase.resetCache (uc : UseCase) : UseCase :=
  { uc with cache := uc.cache.reset }

/-- UseCase.IsWrongKey. -/
def UseCase.isWrongKey (uc : UseCase) : Bool :=
  uc.cache.wrongKeyFlag

theorem encrypt_ok_elim {key pt rand c : List Nat}
    (h : Encrypt key pt rand = .ok c) :
    validKeyLen key.length = true ∧ ¬ rand.length < nonceSize ∧
      c = rand.take nonceSize ++ gcmSeal key (rand.take nonceSize) pt := by
  unfold Encrypt at h
  by_cases h1 : validKeyLen key.length = true
  · by_cases h2 : rand.length < nonceSize
    · simp [h1, h2] at h
    · simp [h1, h2] at h
      exact ⟨h1, h2, h.symm⟩
  · simp [h1] at h

theorem gcmOpen_gcmSeal (key nonce pt : List Nat) :
    gcmOpen key nonce (gcmSeal key nonce pt) = some pt := by
  unfold gcmOpen gcmSeal
  have hlen : (pt ++ gcmTag key nonce pt).length = pt.length + tagSize := by
    simp [gcmTag_length]
  have hnlt : ¬ (pt ++ gcmTag key nonce pt).length < tagSize := by omega
  have hsub : (pt ++ gcmTag key nonce pt).length - tagSize = pt.length := by omega
  rw [if_neg hnlt, hsub, List.take_left, List.drop_left, if_pos rfl]

theorem decrypt_encrypt_core {key pt rand c : List Nat}
    (h : Encrypt key pt rand = .ok c) : Decrypt key c = .ok pt := by
  obtain ⟨h1, h2, rfl⟩ := encrypt_ok_elim h
  have hn : (rand.take nonceSize).length = nonceSize := by
    rw [List.length_take]; omega
  unfold Decrypt
  have hlen : (rand.take nonceSize ++ gcmSeal key (rand.take nonceSize) pt).length
      = nonceSize + (pt.length + tagSize) := by
    simp [gcmSeal, gcmTag_length, hn]
  have hnlt : ¬ (rand.take nonceSize ++ gcmSeal key (rand.take nonceSize) pt).length
      < nonceSize := by omega
  rw [if_pos h1, if_neg hnlt]
  rw [List.take_left' hn, List.drop_left' hn]
  simp [gcmOpen_gcmSeal]

/-- C3: encryption round-trip — for every byte sequence `p` (including the
empty one) and every 32-byte key `k`, if `Encrypt(k, p)` succeeds
(producing `c` from the random stream `rand`) then `Decrypt(k, c)`
succeeds and returns `p`. -/
theorem encrypt_decrypt_roundtrip (key pt rand c : List Nat)
    (hk : key.length = 32) (h : Encrypt key pt rand = .ok c) :
    Decrypt key c = .ok pt :=
  decrypt_encrypt_core h

/-- Witness for C3 at the 32-byte key `1,…,1`, plaintext `[3,4,5]` and
random stream `2,…,2`. -/
theorem encrypt_decrypt_roundtrip_witness :
    Decrypt (List.replicate 32 1)
      (List.replicate 12 2 ++
        gcmSeal (List.replicate 32 1) (List.replicate 12 2) [3, 4, 5]) =
      .ok [3, 4, 5] :=
  encrypt_decrypt_roundtrip (List.replicate 32 1) [3, 4, 5]
    (List.replicate 12 2) _ (by decide) (by rfl)

/-- C6 counterexample: the claim says every key whose length is not 32
fails with the invalid-key-length error, but Go's `aes.NewCipher` also
accepts 16- and 24-byte keys — a 16-byte key encrypts successfully. -/
theorem encrypt_16_byte_key_succeeds :
    (List.replicate 16 0).length ≠ 32 ∧
      (Encrypt (List.replicate 16 0) [] (List.replicate 12 0)).isOk = true :=
  ⟨by decide, by decide⟩

/-- C6 (amended): `Encrypt(key, p)` fails with the invalid-key-size error
exactly when the key length is not an accepted AES key size (16, 24 or
32 bytes); a 32-byte key never produces that error. -/
theorem encrypt_key_length_guard (key pt rand : List Nat) :
    (validKeyLen key.length = false →
      Encrypt key pt rand = .error (.keySize key.length)) ∧
    (key.length = 32 → isKeySizeError (Encrypt key pt rand) = false) := by
  constructor
  · intro h
    unfold Encrypt
    simp [h]
  · intro hk
    have h1 : validKeyLen key.length = true := by
      simp [validKeyLen, hk]
    unfold Encrypt
    by_cases h2 : rand.length < nonceSize
    · simp [h1, h2, isKeySizeError]
    · simp [h1, h2, isKeySizeError]

/-- Witness for C6 (amended) at the 5-byte key `0,0,0,0,0` (rejected with
the key-size error, as the repository's own crypto test expects for
`[]byte("short")`) and at a 32-byte key (never a key-size error). -/
theorem encrypt_key_length_guard_witness :
    Encrypt (List.replicate 5 0) [1] [] = .error (.keySize 5) ∧
      isKeySizeError (Encrypt (List.replicate 32 0) [1] []) = false :=
  ⟨(encrypt_key_length_guard (List.replicate 5 0) [1] []).1 (by decide),
   (encrypt_key_length_guard (List.replicate 32 0) [1] []).2 (by decide)⟩

/-- C7 counterexample: the claim quantifies over every key, but with a key
`aes.NewCipher` rejects (here the empty key) `Decrypt` fails with the
key-size error before the too-short check — not with the
ciphertext-too-short error. -/
theorem decrypt_short_input_invalid_key :
    Decrypt [] [] = .error (.keySize 0) ∧
      CryptoErr.keySize 0 ≠ CryptoErr.tooShort ∧ ([] : List Nat).length < nonceSize :=
  ⟨by rfl, by decide, by decide⟩

/-- C7 (amended): for every key of an accepted AES length and every input
shorter than the 12-byte nonce, `Decrypt` returns the
ciphertext-too-short error — the guard fires before `gcmOpen`, so no
authentication is attempted. -/
theorem decrypt_short_input_guard (key c : List Nat)
    (hk : validKeyLen key.length = true) (hc : c.length < nonceSize) :
    Decrypt key c = .error .tooShort := by
  unfold Decrypt
  simp [hk, hc]

/-- Witness for C7 (amended) at a 32-byte key and the 3-byte input
`[0, 1, 2]`. -/
theorem decrypt_short_input_guard_witness :
    Decrypt (List.replicate 32 0) [0, 1, 2] = .error .tooShort :=
  decrypt_short_input_guard (List.replicate 32 0) [0, 1, 2]
    (by decide) (by decide)

/-- C8: output shape of `Encrypt` — for every 32-byte key and every
plaintext (the empty one included), a successful encryption returns the
12-byte nonce (drawn from the random stream) followed by the sealed
data, and its total length is the plaintext length plus the 12-byte
nonce plus the 16-byte tag. -/
theorem encrypt_output_shape (key pt rand c : List Nat)
    (hk : key.length = 32) (h : Encrypt key pt rand = .ok c) :
    c = rand.take nonceSize ++ gcmSeal key (rand.take nonceSize) pt ∧
      c.length = pt.length + nonceSize + tagSize := by
  obtain ⟨h1, h2, rfl⟩ := encrypt_ok_elim h
  have hn : (rand.take nonceSize).length = nonceSize := by
    rw [List.length_take]; omega
  refine ⟨rfl, ?_⟩
  simp [gcmSeal, gcmTag_length, hn]
  omega

/-- Witness for C8 at a 32-byte key, the singleton plaintext `[7]` and the
random stream `0,…,0`: the output length is `1 + 12 + 16`. -/
theorem encrypt_output_shape_witness :
    (List.replicate 12 0 ++
        gcmSeal (List.replicate 32 0) (List.replicate 12 0) [7]).length =
      1 + nonceSize + tagSize :=
  (encrypt_output_shape (List.replicate 32 0) [7] (List.replicate 12 0) _
    (by decide) (by rfl)).2

theorem sqcache_set_secrets (c : SQCache) (s : Option AllSecrets)
    (rand : List Nat) : (c.set s rand).1.secrets = s := by
  unfold SQCache.set SQCache.saveToDB
  cases s with
  | none => rfl
  | some b =>
    dsimp only
    split
    · split <;> rfl
    · rfl

theorem sqcache_reset_get (c : SQCache) : c.reset.secrets = none := by
  unfold SQCache.reset
  split <;> rfl

/-- C4 counterexample: the claim ranges over every cache instance, but the
file-based variant (internal/storage/cache.go) propagates a hard error
from `Load()` when the persisted entry is present and fails
authentication under the current key — it has no wrong-key flag and
does not return success. -/
theorem fileCache_load_propagates_auth_error :
    Decrypt (List.replicate 32 0) (List.replicate 28 1) = .error .authFailed ∧
      (FileCache.load
          ⟨List.replicate 32 0, some (List.replicate 28 1), none⟩).2 =
        some (.crypto .authFailed) :=
  ⟨by rfl, by rfl⟩

/-- C4 (amended, stated for the SQLite cache variant — the one that
implements `WrongKey()`): after `NewCache(pass)` with persisted row
`row`, `Load()` (i) on a missing row returns success with an empty
state, (ii) on a row that fails decryption sets the wrong-key flag,
leaves the bundle absent and returns success, and (iii) on a row that
decrypts to malformed JSON returns success with an absent bundle. -/
theorem sqcache_load_downgrade (pass : String) (row : Option (List Nat)) :
    (row = none →
      (SQCache.new pass row).load =
        (⟨DeriveKey pass, true, none, none, false⟩, none)) ∧
    (∀ e err, row = some e → Decrypt (DeriveKey pass) e = .error err →
      (SQCache.new pass row).load =
        (⟨DeriveKey pass, true, some e, none, true⟩, none)) ∧
    (∀ e pt, row = some e → Decrypt (DeriveKey pass) e = .ok pt →
      jsonUnmarshal pt = none →
      (SQCache.new pass row).load =
        (⟨DeriveKey pass, true, some e, none, false⟩, none)) := by
  refine ⟨?_, ?_, ?_⟩
  · intro h
    subst h
    rfl
  · intro e err h hd
    subst h
    unfold SQCache.new SQCache.load
    dsimp only
    rw [hd]
  · intro e pt h hd hj
    subst h
    unfold SQCache.new SQCache.load
    dsimp only
    rw [hd]
    dsimp only
    rw [hj]

/-- Witness for C4 (amended): a fresh SQLite cache whose persisted row is
28 bytes of `1`s fails authentication under the derived key, and
`Load()` returns success with the wrong-key flag set and no bundle. -/
theorem sqcache_load_downgrade_witness :
    (SQCache.new "k" (some (List.replicate 28 1))).load =
      (⟨DeriveKey "k", true, some (List.replicate 28 1), none, true⟩, none) :=
  (sqcache_load_downgrade "k" (some (List.replicate 28 1))).2.1
    (List.replicate 28 1) .authFailed rfl (by rfl)

/-- C5 counterexample: `Set(nil)` succeeds and clears the in-memory
bundle, but `saveToDB` returns early on a nil bundle, so the stale
persisted row `[9, 9, 9]` survives — it is neither absent nor the
encryption of the current (nil) bundle (it is even shorter than any
possible `Encrypt` output). -/
theorem sqcache_set_nil_leaves_stale_row :
    SQCache.set
        ⟨List.replicate 32 0, true, some [9, 9, 9], some ⟨[], [], [], []⟩, false⟩
        none [] =
      (⟨List.replicate 32 0, true, some [9, 9, 9], none, false⟩, none) ∧
      ([9, 9, 9] : List Nat).length < nonceSize + tagSize :=
  ⟨rfl, by decide⟩

/-- C5 (amended): on a cache whose database handle is open, (i) a
successful `Set(b)` with a non-nil bundle `b` persists exactly the
encryption of the JSON serialization of `b` (fresh nonce from `rand`)
and installs `b` in memory, (ii) `Reset()` clears the in-memory bundle
and leaves the persisted entry entirely absent, and (iii) `Set(nil)`
succeeds and clears the in-memory bundle but leaves the persisted
entry unchanged. -/
theorem sqcache_persist_invariant (c : SQCache) (b : AllSecrets)
    (rand : List Nat) (hdb : c.dbOpen = true) (hk : c.key.length = 32)
    (hr : nonceSize ≤ rand.length) :
    c.set (some b) rand =
      ({ c with
          secrets := some b,
          row := some (rand.take nonceSize ++
            gcmSeal c.key (rand.take nonceSize) (jsonMarshal b)) }, none) ∧
    c.reset = { c with secrets := none, row := none } ∧
    c.set none rand = ({ c with secrets := none }, none) := by
  have henc : Encrypt c.key (jsonMarshal b) rand =
      .ok (rand.take nonceSize ++
        gcmSeal c.key (rand.take nonceSize) (jsonMarshal b)) := by
    unfold Encrypt
    have h1 : validKeyLen c.key.length = true := by simp [validKeyLen, hk]
    have h2 : ¬ rand.length < nonceSize := by omega
    simp [h1, h2]
  refine ⟨?_, ?_, ?_⟩
  · unfold SQCache.set SQCache.saveToDB
    dsimp only
    rw [hdb]
    simp only [if_true]
    rw [henc]
  · unfold SQCache.reset
    rw [hdb]
    simp
  · rfl

/-- Witness for C5 (amended) on a concrete open cache, the empty bundle
and the random stream `0,…,0`. -/
theorem sqcache_persist_invariant_witness :
    SQCache.set ⟨List.replicate 32 0, true, none, none, false⟩
        (some ⟨[], [], [], []⟩) (List.replicate 12 0) =
      (⟨List.replicate 32 0, true,
          some (List.replicate 12 0 ++
            gcmSeal (List.replicate 32 0) (List.replicate 12 0)
              (jsonMarshal ⟨[], [], [], []⟩)),
          some ⟨[], [], [], []⟩, false⟩, none) :=
  (sqcache_persist_invariant ⟨List.replicate 32 0, true, none, none, false⟩
    ⟨[], [], [], []⟩ (List.replicate 12 0) rfl (by decide) (by decide)).1

theorem sqcache_set_wrongKey (c : SQCache) (s : Option AllSecrets)
    (rand : List Nat) : (c.set s rand).1.wrongKey = c.wrongKey := by
  unfold SQCache.set SQCache.saveToDB
  cases s with
  | none => rfl
  | some b =>
    dsimp only
    split
    · split <;> rfl
    · rfl

theorem sqcache_reset_wrongKey (c : SQCache) :
    c.reset.wrongKey = c.wrongKey := by
  unfold SQCache.reset
  split <;> rfl

theorem sqcache_load_wrongKey_mono (c : SQCache) (h : c.wrongKey = true) :
    (c.load).1.wrongKey = true := by
  unfold SQCache.load
  dsimp only
  split
  · exact h
  · split
    · rfl
    · split
      · exact h
      · exact h

/-- C9: wrong-key flag stickiness — once `wrongKey` is `true` on a cache
instance, `Set` (successful or not), `Reset`, `Close` and even a
further `Load` all leave it `true`, and `WrongKey()` still reports
`true` after a `Set`; no modelled operation ever writes `false` to the
flag (`Get` is read-only and does not touch the state at all). -/
theorem sqcache_wrongKey_sticky (c : SQCache) (s : Option AllSecrets)
    (rand : List Nat) (h : c.wrongKey = true) :
    (c.set s rand).1.wrongKey = true ∧
      c.reset.wrongKey = true ∧
      (c.close).1.wrongKey = true ∧
      (c.load).1.wrongKey = true ∧
      (c.set s rand).1.wrongKeyFlag = true := by
  refine ⟨?_, ?_, ?_, ?_, ?_⟩
  · rw [sqcache_set_wrongKey, h]
  · rw [sqcache_reset_wrongKey, h]
  · exact h
  · exact sqcache_load_wrongKey_mono c h
  · show (c.set s rand).1.wrongKey = true
    rw [sqcache_set_wrongKey, h]

/-- Witness for C9 on a concrete instance whose flag was set by a failed
load: a later `Load` (and, through the same theorem, `Set`, `Reset`
and `Close`) keeps the flag `true`. -/
theorem sqcache_wrongKey_sticky_witness :
    ((⟨[], true, none, none, true⟩ : SQCache).load).1.wrongKey = true :=
  (sqcache_wrongKey_sticky ⟨[], true, none, none, true⟩ none [] rfl).2.2.2.1

/-- A client whose every remote call succeeds (used to instantiate the
orchestrator theorems at concrete inputs). -/
def clientAllOk : HTTPClient where
  register := fun _ _ => .ok "tok"
  login := fun _ _ => .ok "tok"
  getAllSecrets := fun _ => .ok (some ⟨[], [], [], []⟩)
  getLoginPasswords := fun _ => .ok []
  getTextSecrets := fun _ => .ok []
  getBinarySecrets := fun _ => .ok []
  getCardSecrets := fun _ => .ok []
  postLoginPassword := fun _ _ => none
  postTextSecret := fun _ _ => none
  postBinarySecret := fun _ _ => none
  postCardSecret := fun _ _ => none
  deleteLoginPassword := fun _ _ => none
  deleteTextSecret := fun _ _ => none
  deleteBinarySecret := fun _ _ => none
  deleteCardSecret := fun _ _ => none

/-- A client whose every remote call fails with the error "down". -/
def clientAllDown : HTTPClient where
  register := fun _ _ => .error "down"
  login := fun _ _ => .error "down"
  getAllSecrets := fun _ => .error "down"
  getLoginPasswords := fun _ => .error "down"
  getTextSecrets := fun _ => .error "down"
  getBinarySecrets := fun _ => .error "down"
  getCardSecrets := fun _ => .error "down"
  postLoginPassword := fun _ _ => some "down"
  postTextSecret := fun _ _ => some "down"
  postBinarySecret := fun _ _ => some "down"
  postCardSecret := fun _ _ => some "down"
  deleteLoginPassword := fun _ _ => some "down"
  deleteTextSecret := fun _ _ => some "down"
  deleteBinarySecret := fun _ _ => some "down"
  deleteCardSecret := fun _ _ => some "down"

/-- C1: read-path contract of the server-first `GetAllSecrets()` — for
every token and cache state, (i) when the remote call succeeds with
bundle `s`, the result is `s` and the cache now holds `s` (the `Set`
error is discarded), (ii) when the remote call fails and the cache
holds a bundle, that bundle is returned without error and the state is
untouched, and (iii) when the remote call fails and the cache is
empty, the remote error is returned unchanged. -/
theorem getAllSecrets_server_first (client : HTTPClient) (cache : SQCache)
    (token : String) (rand : List Nat) :
    (∀ s, client.getAllSecrets token = .ok s →
      UseCase.getAllSecrets ⟨client, cache, token⟩ rand =
        (.ok s, ⟨client, (cache.set s rand).1, token⟩) ∧
        (cache.set s rand).1.secrets = s) ∧
    (∀ e b, client.getAllSecrets token = .error e → cache.secrets = some b →
      UseCase.getAllSecrets ⟨client, cache, token⟩ rand =
        (.ok (some b), ⟨client, cache, token⟩)) ∧
    (∀ e, client.getAllSecrets token = .error e → cache.secrets = none →
      UseCase.getAllSecrets ⟨client, cache, token⟩ rand =
        (.error e, ⟨client, cache, token⟩)) := by
  refine ⟨?_, ?_, ?_⟩
  · intro s h
    refine ⟨?_, sqcache_set_secrets cache s rand⟩
    unfold UseCase.getAllSecrets
    dsimp only
    rw [h]
  · intro e b h hb
    unfold UseCase.getAllSecrets SQCache.get
    dsimp only
    rw [h]
    dsimp only
    rw [hb]
  · intro e h hb
    unfold UseCase.getAllSecrets SQCache.get
    dsimp only
    rw [h]
    dsimp only
    rw [hb]

/-- Witness for C1: with an all-succeeding client the returned bundle is
cached; with an all-failing client and a populated cache the cached
bundle is returned without error. -/
theorem getAllSecrets_server_first_witness :
    UseCase.getAllSecrets
        ⟨clientAllDown,
          ⟨List.replicate 32 0, true, none, some ⟨[], [], [], []⟩, false⟩,
          "t"⟩ [] =
      (.ok (some ⟨[], [], [], []⟩),
        ⟨clientAllDown,
          ⟨List.replicate 32 0, true, none, some ⟨[], [], [], []⟩, false⟩,
          "t"⟩) :=
  (getAllSecrets_server_first clientAllDown
    ⟨List.replicate 32 0, true, none, some ⟨[], [], [], []⟩, false⟩
    "t" []).2.1 "down" ⟨[], [], [], []⟩ rfl rfl

/-- C2: write-path invalidation and atomicity — for each of the eight
create/delete operations, when the remote call succeeds the operation
calls `Cache.Reset()` (so `Cache.Get()` is absent immediately
afterward, regardless of the prior cache contents, as the final
conjunct records); when the remote call fails, the cache is left
untouched and the remote error is returned unchanged. -/
theorem write_path_invalidation (client : HTTPClient) (cache : SQCache)
    (token : String) :
    (∀ lp, client.postLoginPassword token lp = none →
      UseCase.addLoginPassword ⟨client, cache, token⟩ lp =
        (none, ⟨client, cache.reset, token⟩)) ∧
    (∀ lp e, client.postLoginPassword token lp = some e →
      UseCase.addLoginPassword ⟨client, cache, token⟩ lp =
        (some e, ⟨client, cache, token⟩)) ∧
    (∀ ts, client.postTextSecret token ts = none →
      UseCase.addTextSecret ⟨client, cache, token⟩ ts =
        (none, ⟨client, cache.reset, token⟩)) ∧
    (∀ ts e, client.postTextSecret token ts = some e →
      UseCase.addTextSecret ⟨client, cache, token⟩ ts =
        (some e, ⟨client, cache, token⟩)) ∧
    (∀ bs, client.postBinarySecret token bs = none →
      UseCase.addBinarySecret ⟨client, cache, token⟩ bs =
        (none, ⟨client, cache.reset, token⟩)) ∧
    (∀ bs e, client.postBinarySecret token bs = some e →
      UseCase.addBinarySecret ⟨client, cache, token⟩ bs =
        (some e, ⟨client, cache, token⟩)) ∧
    (∀ cs, client.postCardSecret token cs = none →
      UseCase.addCardSecret ⟨client, cache, token⟩ cs =
        (none, ⟨client, cache.reset, token⟩)) ∧
    (∀ cs e, client.postCardSecret token cs = some e →
      UseCase.addCardSecret ⟨client, cache, token⟩ cs =
        (some e, ⟨client, cache, token⟩)) ∧
    (∀ lg, client.deleteLoginPassword token lg = none →
      UseCase.deleteLoginPassword ⟨client, cache, token⟩ lg =
        (none, ⟨client, cache.reset, token⟩)) ∧
    (∀ lg e, client.deleteLoginPassword token lg = some e →
      UseCase.deleteLoginPassword ⟨client, cache, token⟩ lg =
        (some e, ⟨client, cache, token⟩)) ∧
    (∀ ti, client.deleteTextSecret token ti = none →
      UseCase.deleteTextSecret ⟨client, cache, token⟩ ti =
        (none, ⟨client, cache.reset, token⟩)) ∧
    (∀ ti e, client.deleteTextSecret token ti = some e →
      UseCase.deleteTextSecret ⟨client, cache, token⟩ ti =
        (some e, ⟨client, cache, token⟩)) ∧
    (∀ fn, client.deleteBinarySecret token fn = none →
      UseCase.deleteBinarySecret ⟨client, cache, token⟩ fn =
        (none, ⟨client, cache.reset, token⟩)) ∧
    (∀ fn e, client.deleteBinarySecret token fn = some e →
      UseCase.deleteBinarySecret ⟨client, cache, token⟩ fn =
        (some e, ⟨client, cache, token⟩)) ∧
    (∀ ch, client.deleteCardSecret token ch = none →
      UseCase.deleteCardSecret ⟨client, cache, token⟩ ch =
        (none, ⟨client, cache.reset, token⟩)) ∧
    (∀ ch e, client.deleteCardSecret token ch = some e →
      UseCase.deleteCardSecret ⟨client, cache, token⟩ ch =
        (some e, ⟨client, cache, token⟩)) ∧
    cache.reset.secrets = none := by
  refine ⟨?_, ?_, ?_, ?_, ?_, ?_, ?_, ?_, ?_, ?_, ?_, ?_, ?_, ?_, ?_, ?_,
    sqcache_reset_get cache⟩
  · intro lp h
    unfold UseCase.addLoginPassword
    dsimp only
    rw [h]
  · intro lp e h
    unfold UseCase.addLoginPassword
    dsimp only
    rw [h]
  · intro ts h
    unfold UseCase.addTextSecret
    dsimp only
    rw [h]
  · intro ts e h
    unfold UseCase.addTextSecret
    dsimp only
    rw [h]
  · intro bs h
    unfold UseCase.addBinarySecret
    dsimp only
    rw [h]
  · intro bs e h
    unfold UseCase.addBinarySecret
    dsimp only
    rw [h]
  · intro cs h
    unfold UseCase.addCardSecret
    dsimp only
    rw [h]
  · intro cs e h
    unfold UseCase.addCardSecret
    dsimp only
    rw [h]
  · intro lg h
    unfold UseCase.deleteLoginPassword
    dsimp only
    rw [h]
  · intro lg e h
    unfold UseCase.deleteLoginPassword
    dsimp only
    rw [h]
  · intro ti h
    unfold UseCase.deleteTextSecret
    dsimp only
    rw [h]
  · intro ti e h
    unfold UseCase.deleteTextSecret
    dsimp only
    rw [h]
  · intro fn h
    unfold UseCase.deleteBinarySecret
    dsimp only
    rw [h]
  · intro fn e h
    unfold UseCase.deleteBinarySecret
    dsimp only
    rw [h]
  · intro ch h
    unfold UseCase.deleteCardSecret
    dsimp only
    rw [h]
  · intro ch e h
    unfold UseCase.deleteCardSecret
    dsimp only
    rw [h]

/-- Witness for C2: a successful `AddLoginPassword` resets a populated
cache (so `Get()` is absent) and a failed `DeleteCardSecret` leaves
the populated cache untouched and returns the error. -/
theorem write_path_invalidation_witness :
    UseCase.addLoginPassword
        ⟨clientAllOk,
          ⟨List.replicate 32 0, true, none, some ⟨[], [], [], []⟩, false⟩,
          "t"⟩ ⟨"l", "p", "lab"⟩ =
      (none,
        ⟨clientAllOk,
          SQCache.reset
            ⟨List.replicate 32 0, true, none, some ⟨[], [], [], []⟩, false⟩,
          "t"⟩) ∧
    UseCase.deleteCardSecret
        ⟨clientAllDown,
          ⟨List.replicate 32 0, true, none, some ⟨[], [], [], []⟩, false⟩,
          "t"⟩ "ch" =
      (some "down",
        ⟨clientAllDown,
          ⟨List.replicate 32 0, true, none, some ⟨[], [], [], []⟩, false⟩,
          "t"⟩) :=
  ⟨(write_path_invalidation clientAllOk
      ⟨List.replicate 32 0, true, none, some ⟨[], [], [], []⟩, false⟩
      "t").1 ⟨"l", "p", "lab"⟩ rfl,
   (write_path_invalidation clientAllDown
      ⟨List.replicate 32 0, true, none, some ⟨[], [], [], []⟩, false⟩
      "t").2.2.2.2.2.2.2.2.2.2.2.2.2.2.2.1 "ch" "down" rfl⟩

/-- C10: the per-kind read operations never modify the cache — their
resulting state is always the input state, on remote success they
return the remote result without storing it, and the cache is read
only as a fallback when the remote call fails (returning that kind's
sequence when a bundle is cached, else the remote error). -/
theorem per_kind_reads_no_cache_write (client : HTTPClient) (cache : SQCache)
    (token : String) :
    ((UseCase.getLoginPasswords ⟨client, cache, token⟩).2 =
      ⟨client, cache, token⟩) ∧
    ((UseCase.getTextSecrets ⟨client, cache, token⟩).2 =
      ⟨client, cache, token⟩) ∧
    ((UseCase.getBinarySecrets ⟨client, cache, token⟩).2 =
      ⟨client, cache, token⟩) ∧
    ((UseCase.getCardSecrets ⟨client, cache, token⟩).2 =
      ⟨client, cache, token⟩) ∧
    (∀ r, client.getLoginPasswords token = .ok r →
      UseCase.getLoginPasswords ⟨client, cache, token⟩ =
        (.ok r, ⟨client, cache, token⟩)) ∧
    (∀ r, client.getTextSecrets token = .ok r →
      UseCase.getTextSecrets ⟨client, cache, token⟩ =
        (.ok r, ⟨client, cache, token⟩)) ∧
    (∀ r, client.getBinarySecrets token = .ok r →
      UseCase.getBinarySecrets ⟨client, cache, token⟩ =
        (.ok r, ⟨client, cache, token⟩)) ∧
    (∀ r, client.getCardSecrets token = .ok r →
      UseCase.getCardSecrets ⟨client, cache, token⟩ =
        (.ok r, ⟨client, cache, token⟩)) ∧
    (∀ e b, client.getLoginPasswords token = .error e →
      cache.secrets = some b →
      UseCase.getLoginPasswords ⟨client, cache, token⟩ =
        (.ok b.loginPassword, ⟨client, cache, token⟩)) ∧
    (∀ e b, client.getTextSecrets token = .error e →
      cache.secrets = some b →
      UseCase.getTextSecrets ⟨client, cache, token⟩ =
        (.ok b.textSecret, ⟨client, cache, token⟩)) ∧
    (∀ e b, client.getBinarySecrets token = .error e →
      cache.secrets = some b →
      UseCase.getBinarySecrets ⟨client, cache, token⟩ =
        (.ok b.binarySecret, ⟨client, cache, token⟩)) ∧
    (∀ e b, client.getCardSecrets token = .error e →
      cache.secrets = some b →
      UseCase.getCardSecrets ⟨client, cache, token⟩ =
        (.ok b.cardSecret, ⟨client, cache, token⟩)) ∧
    (∀ e, client.getLoginPasswords token = .error e →
      cache.secrets = none →
      UseCase.getLoginPasswords ⟨client, cache, token⟩ =
        (.error e, ⟨client, cache, token⟩)) ∧
    (∀ e, client.getTextSecrets token = .error e →
      cache.secrets = none →
      UseCase.getTextSecrets ⟨client, cache, token⟩ =
        (.error e, ⟨client, cache, token⟩)) ∧
    (∀ e, client.getBinarySecrets token = .error e →
      cache.secrets = none →
      UseCase.getBinarySecrets ⟨client, cache, token⟩ =
        (.error e, ⟨client, cache, token⟩)) ∧
    (∀ e, client.getCardSecrets token = .error e →
      cache.secrets = none →
      UseCase.getCardSecrets ⟨client, cache, token⟩ =
        (.error e, ⟨client, cache, token⟩)) := by
  refine ⟨?_, ?_, ?_, ?_, ?_, ?_, ?_, ?_, ?_, ?_, ?_, ?_, ?_, ?_, ?_, ?_⟩
  · unfold UseCase.getLoginPasswords SQCache.get
    dsimp only
    split
    · rfl
    · split <;> rfl
  · unfold UseCase.getTextSecrets SQCache.get
    dsimp only
    split
    · rfl
    · split <;> rfl
  · unfold UseCase.getBinarySecrets SQCache.get
    dsimp only
    split
    · rfl
    · split <;> rfl
  · unfold UseCase.getCardSecrets SQCache.get
    dsimp only
    split
    · rfl
    · split <;> rfl
  · intro r h
    unfold UseCase.getLoginPasswords
    dsimp only
    rw [h]
  · intro r h
    unfold UseCase.getTextSecrets
    dsimp only
    rw [h]
  · intro r h
    unfold UseCase.getBinarySecrets
    dsimp only
    rw [h]
  · intro r h
    unfold UseCase.getCardSecrets
    dsimp only
    rw [h]
  · intro e b h hb
    unfold UseCase.getLoginPasswords SQCache.get
    dsimp only
    rw [h]
    dsimp only
    rw [hb]
  · intro e b h hb
    unfold UseCase.getTextSecrets SQCache.get
    dsimp only
    rw [h]
    dsimp only
    rw [hb]
  · intro e b h hb
    unfold UseCase.getBinarySecrets SQCache.get
    dsimp only
    rw [h]
    dsimp only
    rw [hb]
  · intro e b h hb
    unfold UseCase.getCardSecrets SQCache.get
    dsimp only
    rw [h]
    dsimp only
    rw [hb]
  · intro e h hb
    unfold UseCase.getLoginPasswords SQCache.get
    dsimp only
    rw [h]
    dsimp only
    rw [hb]
  · intro e h hb
    unfold UseCase.getTextSecrets SQCache.get
    dsimp only
    rw [h]
    dsimp only
    rw [hb]
  · intro e h hb
    unfold UseCase.getBinarySecrets SQCache.get
    dsimp only
    rw [h]
    dsimp only
    rw [hb]
  · intro e h hb
    unfold UseCase.getCardSecrets SQCache.get
    dsimp only
    rw [h]
    dsimp only
    rw [hb]

/-- Witness for C10: with an all-succeeding client the per-kind read
returns the remote sequence and the whole state (cache included) is
unchanged; with an all-failing client and a populated cache the
cached sequence of that kind is returned, also without touching the
state. -/
theorem per_kind_reads_no_cache_write_witness :
    UseCase.getTextSecrets
        ⟨clientAllOk,
          ⟨List.replicate 32 0, true, none, some ⟨[], [], [], []⟩, false⟩,
          "t"⟩ =
      (.ok [],
        ⟨clientAllOk,
          ⟨List.replicate 32 0, true, none, some ⟨[], [], [], []⟩, false⟩,
          "t"⟩) ∧
    UseCase.getLoginPasswords
        ⟨clientAllDown,
          ⟨List.replicate 32 0, true, none,
            some ⟨[⟨"l", "p", "lab"⟩], [], [], []⟩, false⟩,
          "t"⟩ =
      (.ok [⟨"l", "p", "lab"⟩],
        ⟨clientAllDown,
          ⟨List.replicate 32 0, true, none,
            some ⟨[⟨"l", "p", "lab"⟩], [], [], []⟩, false⟩,
          "t"⟩) :=
  ⟨(per_kind_reads_no_cache_write clientAllOk
      ⟨List.replicate 32 0, true, none, some ⟨[], [], [], []⟩, false⟩
      "t").2.2.2.2.2.1 [] rfl,
   (per_kind_reads_no_cache_write clientAllDown
      ⟨List.replicate 32 0, true, none,
        some ⟨[⟨"l", "p", "lab"⟩], [], [], []⟩, false⟩
      "t").2.2.2.2.2.2.2.2.1 "down" ⟨[⟨"l", "p", "lab"⟩], [], [], []⟩
      rfl rfl⟩
